import Mathlib

/-!
Verification of the SpotJar map-view and data-layer behavior against the
design specification.  Every definition is a shallow embedding of a function
or effect of the repository sources (the file and line ranges are cited at
each definition); coordinates and ratings, TypeScript numbers, are modelled
as rationals, optional fields as Option, and asynchronous callback
interleavings as explicit event lists folded over a step function.
-/

namespace SpotJar

/-- The Place record, from the type Place declaration shared by every map
component (for instance src/app/(tabs)/SpotMap.web.tsx lines 3-8): all fields
beyond id and name are optional. -/
structure Place where
  id : String
  name : String
  category : Option String := none
  price : Option String := none
  area : Option String := none
  vibe : Option String := none
  dish : Option String := none
  recommender : Option String := none
  rating : Option ℚ := none
  notes : Option String := none
  lat : Option ℚ := none
  lng : Option ℚ := none
  map_id : Option String := none
deriving DecidableEq

/-- JavaScript truthiness of an optional numeric field: undefined and 0 are
falsy (NaN, also falsy, has no counterpart among the rationals). -/
def numTruthy : Option ℚ → Bool
  | none => false
  | some x => decide (x ≠ 0)

/-- The marker filter every map variant applies to the place list:
places.filter(p => p.lat && p.lng). -/
def hasTruthyCoords (p : Place) : Bool :=
  numTruthy p.lat && numTruthy p.lng

/-- The wording of the specification for the marker filter: both coordinate
FIELDS present, regardless of value.  Declared only so claim C1 can be
compared against the filter the source actually uses, hasTruthyCoords. -/
def hasBothCoords (p : Place) : Bool :=
  p.lat.isSome && p.lng.isSome

/-- A Leaflet marker as the marker-sync effect creates it:
L.marker([p.lat!, p.lng!]) together with the payload of its click handler,
marker.on("click", () => onMarkerPress(p)). -/
structure Marker where
  pos : ℚ × ℚ
  clickPayload : Place
deriving DecidableEq

/-- Marker construction for one place that passed the filter
(src/app/(tabs)/SpotMap.web.tsx lines 102-104). -/
def mkMarker (p : Place) : Marker :=
  { pos := (p.lat.getD 0, p.lng.getD 0), clickPayload := p }

/-- One run of the marker-sync effect (src/app/(tabs)/SpotMap.web.tsx lines
92-106, identical in src/components/_SpotMap.tsx lines 116-129): every
previously rendered marker is removed (markersRef.current.forEach(m =>
m.remove()) and the ref is reset to the empty array), then one marker is
pushed per place passing the truthiness filter.  The previously rendered set
is therefore ignored. -/
def markerSyncStep (_rendered : List Marker) (places : List Place) : List Marker :=
  (places.filter hasTruthyCoords).map mkMarker

/-- The markers rendered after a sequence of place-list updates on a ready
map, starting from no markers: the sync effect runs once per update. -/
def runMarkerSync (updates : List (List Place)) : List Marker :=
  updates.foldl markerSyncStep []

/-- The marker set claim C1 literally asks for: one marker per place with
both coordinate fields present. -/
def specMarkerSet (places : List Place) : List Marker :=
  (places.filter hasBothCoords).map mkMarker

/-- A react-native-maps Marker element as NativeMap renders it
(src/components/_SpotMap.tsx lines 181-188): key, coordinate, pin colour,
and the payload of its onPress handler. -/
structure NativeMarker where
  key : String
  coordinate : ℚ × ℚ
  pinColor : String
  pressPayload : Place
deriving DecidableEq

/-- The native marker list: the same truthiness filter, then one Marker
element per place. -/
def nativeRender (getPinColor : Option String → String) (places : List Place) :
    List NativeMarker :=
  (places.filter hasTruthyCoords).map fun p =>
    { key := p.id, coordinate := (p.lat.getD 0, p.lng.getD 0),
      pinColor := getPinColor p.category, pressPayload := p }

/-- Coordinates of a Leaflet contextmenu (right-click / long-press) event. -/
structure LatLng where
  lat : ℚ
  lng : ℚ
deriving DecidableEq

/-- The normalized coordinate-capture payload handed to onLongPress:
{ nativeEvent: { coordinate: { latitude, longitude } } }. -/
structure CoordinateCapture where
  latitude : ℚ
  longitude : ℚ
deriving DecidableEq

/-- src/app/(tabs)/SpotMap.web.tsx: the mount effect has [] dependencies, so
initMap runs once and the contextmenu handler it registers (lines 78-82)
closes over the pinMode prop value of the render that created it.  The
handler state records that captured value; later renders never replace the
handler. -/
structure WebTsxHandler where
  capturedPinMode : Bool
deriving DecidableEq

/-- Handler registration at map construction time. -/
def webTsxInstall (pinModeAtMount : Bool) : WebTsxHandler :=
  { capturedPinMode := pinModeAtMount }

/-- The contextmenu handler body of SpotMap.web.tsx lines 78-82: it tests the
captured pinMode; the pin-mode value current at gesture time is not
consulted. -/
def webTsxContextMenu (h : WebTsxHandler) (_pinModeNow : Bool) (e : LatLng) :
    Option CoordinateCapture :=
  if h.capturedPinMode then some { latitude := e.lat, longitude := e.lng } else none

/-- The WebMap of src/components/_SpotMap.tsx: its mount effect lists pinMode
among its dependencies (line 114), so a pin-mode change tears the map down
and re-registers the contextmenu handler (lines 82-90) with the new value;
the handler therefore tests the pin-mode active at gesture time. -/
def spotMapWebContextMenu (pinModeNow : Bool) (e : LatLng) : Option CoordinateCapture :=
  if pinModeNow then some { latitude := e.lat, longitude := e.lng } else none

/-- State of a guarded map construction: the ref holding the map instance
(mapInstanceRef.current in SpotMap.web.tsx, mapRef.current in
src/unnamed/part_003) and how many times the construction L.map(container)
has executed. -/
structure TryInitState where
  mapInstance : Option Nat
  constructions : Nat
deriving DecidableEq

/-- The state at mount: no instance, nothing constructed. -/
def tryInitInitial : TryInitState :=
  { mapInstance := none, constructions := 0 }

/-- One invocation of tryInit (src/app/(tabs)/SpotMap.web.tsx lines 57-85) in
an environment where the container div may or may not be attached: a missing
container only schedules a retry; an existing instance returns; otherwise the
map is constructed and stored in the ref in the same synchronous step. -/
def tryInitStep (s : TryInitState) (containerPresent : Bool) : TryInitState :=
  if !containerPresent then s
  else if s.mapInstance.isSome then s
  else { mapInstance := some s.constructions, constructions := s.constructions + 1 }

/-- Any interleaving of tryInit invocations (timer callbacks) after mount. -/
def tryInitRun (events : List Bool) : TryInitState :=
  events.foldl tryInitStep tryInitInitial

/-- One invocation of createMap of src/unnamed/part_003 (lines 73-97): it
re-reads the container and checks mapRef.current before constructing, and the
construction and the ref assignment happen in the same synchronous step. -/
def createMapStep (s : TryInitState) (containerPresent : Bool) : TryInitState :=
  if !containerPresent || s.mapInstance.isSome then s
  else { mapInstance := some s.constructions, constructions := s.constructions + 1 }

/-- Any interleaving of createMap invocations (overlapping geolocation and
polling completions) after mount. -/
def createMapRun (events : List Bool) : TryInitState :=
  events.foldl createMapStep tryInitInitial

/-- The single-construction invariant: at most one construction ever ran, and
none before the ref was first filled. -/
def InitInv (s : TryInitState) : Prop :=
  s.constructions ≤ 1 ∧ (s.mapInstance = none → s.constructions = 0)

/-- State of a readiness poll: the attempts counter, whether the interval is
still scheduled, and the ready flag of the component. -/
structure PollState where
  attempts : Nat
  intervalActive : Bool
  ready : Bool
deriving DecidableEq

/-- Poll state right after mount. -/
def pollInitial : PollState :=
  { attempts := 0, intervalActive := true, ready := false }

/-- One tick of the src/unnamed/part_003 interval (lines 49-61) in an
environment where the library or the container never becomes ready: attempts
is incremented but never compared against any bound, and the guard
if (!L || !container) return; leaves the interval scheduled. -/
def part3PollTick (s : PollState) : PollState :=
  if s.intervalActive then
    { attempts := s.attempts + 1, intervalActive := true, ready := s.ready }
  else s

/-- One tick of the src/unnamed/part_000 interval (lines 48-57) in the same
never-ready environment: after attempts++, the guard holds, and
if (attempts > 50) clearInterval(interval) stops the poll once the counter
passes 50; no exception is thrown and ready is never set. -/
def part0PollTick (s : PollState) : PollState :=
  if s.intervalActive then
    if 50 < s.attempts + 1 then
      { attempts := s.attempts + 1, intervalActive := false, ready := s.ready }
    else
      { attempts := s.attempts + 1, intervalActive := true, ready := s.ready }
  else s

/-- The termination property claim C4 asserts of the part_003 adapter: the
readiness polling performs a bounded number of attempts, after which the
polling is terminated. -/
def part3PollGivesUp : Prop :=
  ∃ B : ℕ, ∀ n : ℕ, B ≤ n → (part3PollTick^[n] pollInitial).intervalActive = false

/-- What one getCurrentPosition call delivers: a position, or an error
(permission denial, timeout, positioning failure). -/
inductive GeoOutcome where
  | success (latitude longitude : ℚ)
  | failure
deriving DecidableEq

/-- The browser environment getLocation runs in: whether navigator.geolocation
exists, and the outcome it would deliver. -/
structure GeoEnv where
  hasGeolocation : Bool
  outcome : GeoOutcome
deriving DecidableEq

/-- DEFAULT_LOCATION = { lat: 49.2827, lng: -123.1207 }, the fixed fallback
coordinate declared at the top of every map component. -/
def DEFAULT_LOCATION : ℚ × ℚ :=
  (492827 / 10000, -1231207 / 10000)

/-- getLocation of src/app/(tabs)/SpotMap.web.tsx lines 44-53, recording every
invocation of its continuation cb: success passes the device position, the
error callback passes the fallback, and the missing-capability branch passes
the fallback. -/
def getLocationCalls (env : GeoEnv) : List (ℚ × ℚ) :=
  if env.hasGeolocation then
    match env.outcome with
    | .success la ln => [(la, ln)]
    | .failure => [DEFAULT_LOCATION]
  else [DEFAULT_LOCATION]

/-- The coordinate the web view is initialized on:
L.map(container).setView([lat, lng], 13) receives the coordinate passed to
the getLocation continuation. -/
def webInitCenter (env : GeoEnv) : ℚ × ℚ :=
  (getLocationCalls env).headI

/-- The NativeMap location state after the geolocation effect of
src/components/_SpotMap.tsx lines 157-162 resolves: success and error
callbacks both set it, and with no geolocation capability no callback ever
fires and the state stays null. -/
def nativeLocationState (env : GeoEnv) : Option (ℚ × ℚ) :=
  if env.hasGeolocation then
    match env.outcome with
    | .success la ln => some (la, ln)
    | .failure => some DEFAULT_LOCATION
  else none

/-- const center = location || DEFAULT_LOCATION (src/components/_SpotMap.tsx
line 165): the render-time default when the state is still null. -/
def nativeCenter (location : Option (ℚ × ℚ)) : ℚ × ℚ :=
  location.getD DEFAULT_LOCATION

/-- A row of the maps table, with the columns the code reads and writes
(src/app/(tabs)/SpotMap.tsx lines 602-611 build one). -/
structure MapRow where
  id : String
  name : String
  emoji : String
  category : String
  code : String
  members : List String
  created_at : ℤ
  owner_id : String
deriving DecidableEq

/-- The visible state of the hosted backend: the maps and places tables, and
the user_maps join table of (user_id, map_id) pairs. -/
structure Store where
  maps : List MapRow
  places : List Place
  user_maps : List (String × String)
deriving DecidableEq

/-- The read supabase.from("maps").select("*").eq("id", id). -/
def selectMapById (s : Store) (id : String) : List MapRow :=
  s.maps.filter fun m => m.id == id

/-- The read supabase.from("places").select("*").eq("map_id", id). -/
def selectPlacesByMapId (s : Store) (id : String) : List Place :=
  s.places.filter fun p => p.map_id == some id

/-- The read supabase.from("maps").select("*").eq("code", c).single():
single() yields the row when exactly one matches and a null data value
otherwise (src/app/(tabs)/SpotMap.tsx line 553). -/
def selectMapByCode (s : Store) (c : String) : Option MapRow :=
  match s.maps.filter (fun m => m.code == c) with
  | [m] => some m
  | _ => none

/-- The write supabase.from("user_maps").upsert({user_id, map_id}): inserts
the membership pair unless it is already present. -/
def upsertUserMap (s : Store) (userId mapId : String) : Store :=
  if s.user_maps.contains (userId, mapId) then s
  else { s with user_maps := s.user_maps ++ [(userId, mapId)] }

/-- Modelled from the spec: the schema of the hosted backend is not under
src/; per the invariant of the spec, "deleting a Map cascades to its Places",
the row delete issued by supabase.from("maps").delete().eq("id", id) removes
the map row together with every places row whose map_id references it. -/
def dbDeleteMapCascade (s : Store) (id : String) : Store :=
  { s with
      maps := s.maps.filter fun m => !(m.id == id),
      places := s.places.filter fun p => !(p.map_id == some id) }

/-- The app-side MapList value (src/app/(tabs)/SpotMap.tsx lines 298-302): a
map row combined with its places array. -/
structure MapList where
  id : String
  name : String
  emoji : String
  category : String
  code : String
  members : List String
  places : List Place
  created_at : ℤ
  owner_id : Option String
deriving DecidableEq

/-- deleteMap (src/app/(tabs)/SpotMap.tsx lines 497-501): issues the maps-row
delete against the backend and drops the map from the local home list,
setMaps(ms => ms.filter(m => m.id !== id)). -/
def deleteMap (s : Store) (localMaps : List MapList) (id : String) :
    Store × List MapList :=
  (dbDeleteMapCascade s id, localMaps.filter fun m => !(m.id == id))

/-- Everything the onMapJoined handler produces: its boolean return value,
the local home list after setMaps, the backend state after its writes, and
the argument of the openMap call when one happens. -/
structure JoinResult where
  success : Bool
  localMaps : List MapList
  store : Store
  opened : Option MapList
deriving DecidableEq

/-- code.toUpperCase() of the join handler, modelled character-wise (join
codes are ASCII alphanumerics produced by Math.random().toString(36)). -/
def jsToUpperCase (s : String) : String :=
  String.mk (s.data.map Char.toUpper)

/-- The MapList value the join handler builds from the found row:
found = { ...mapData, places: placesData || [] }. -/
def joinedMapList (row : MapRow) (placesData : List Place) : MapList :=
  { id := row.id, name := row.name, emoji := row.emoji,
    category := row.category, code := row.code, members := row.members,
    places := placesData, created_at := row.created_at,
    owner_id := some row.owner_id }

/-- The onMapJoined handler (src/app/(tabs)/SpotMap.tsx lines 552-561): looks
the uppercased code up with single(); a miss returns false before any write;
a hit reads the places of the map, upserts the membership, appends the found
map to the home list unless ms.find(m => m.id === found.id) already succeeds,
and opens the map. -/
def onMapJoined (s : Store) (userId : String) (localMaps : List MapList)
    (code : String) : JoinResult :=
  match selectMapByCode s (jsToUpperCase code) with
  | none => { success := false, localMaps := localMaps, store := s, opened := none }
  | some mapData =>
    let found := joinedMapList mapData (selectPlacesByMapId s mapData.id)
    { success := true,
      localMaps :=
        if localMaps.any (fun m => m.id == found.id) then localMaps
        else localMaps ++ [found],
      store := upsertUserMap s userId found.id,
      opened := some found }

/-- The add/edit form state, form : a Place with every field optional
(src/app/(tabs)/SpotMap.tsx line 847). -/
structure PlaceForm where
  name : Option String := none
  category : Option String := none
  price : Option String := none
  area : Option String := none
  vibe : Option String := none
  dish : Option String := none
  recommender : Option String := none
  rating : Option ℚ := none
  notes : Option String := none
  lat : Option ℚ := none
  lng : Option ℚ := none
deriving DecidableEq

/-- The object spread { ...p, ...form } of the edit path (line 917): a field
the form carries overwrites the stored one; id and map_id are not form
fields and stay. -/
def mergeForm (p : Place) (f : PlaceForm) : Place :=
  { id := p.id, name := f.name.getD p.name,
    category := f.category <|> p.category, price := f.price <|> p.price,
    area := f.area <|> p.area, vibe := f.vibe <|> p.vibe,
    dish := f.dish <|> p.dish, recommender := f.recommender <|> p.recommender,
    rating := f.rating <|> p.rating, notes := f.notes <|> p.notes,
    lat := f.lat <|> p.lat, lng := f.lng <|> p.lng, map_id := p.map_id }

/-- The inserted row of the add path (line 919):
{ ...form, id: Date.now().toString(), map_id: mapList.id }. -/
def formToPlace (f : PlaceForm) (newId mapId : String) : Place :=
  { id := newId, name := f.name.getD "", category := f.category,
    price := f.price, area := f.area, vibe := f.vibe, dish := f.dish,
    recommender := f.recommender, rating := f.rating, notes := f.notes,
    lat := f.lat, lng := f.lng, map_id := some mapId }

/-- How savePlace ends: one of its three alerts (name missing, place limit,
backend write failure), each leaving the list untouched, or the updated
place list passed to onUpdate. -/
inductive SaveOutcome where
  | alertNameRequired
  | alertPlaceLimit
  | alertSaveError
  | saved (places : List Place)
deriving DecidableEq

/-- True on the three alert outcomes. -/
def SaveOutcome.isAlert : SaveOutcome → Bool
  | .saved _ => false
  | _ => true

/-- The place list of the map after a savePlace outcome: alerts leave the
list as it was. -/
def placesAfter (orig : List Place) : SaveOutcome → List Place
  | .saved ps => ps
  | _ => orig

/-- savePlace (src/app/(tabs)/SpotMap.tsx lines 909-928).  Checks in source
order: if (!form.name?.trim()) alert; if (!editing && placesCount >= 200)
alert; then the supabase write (a backend error alerts and changes nothing
locally); on success the edit path maps the merge over the list and the add
path appends the new place. -/
def savePlace (places : List Place) (editing : Option String) (f : PlaceForm)
    (newId mapId : String) (backendOk : Bool) : SaveOutcome :=
  if ((f.name.getD "").trim).isEmpty then .alertNameRequired
  else if editing = none ∧ 200 ≤ places.length then .alertPlaceLimit
  else if backendOk = false then .alertSaveError
  else
    match editing with
    | some eid => .saved (places.map fun p => if p.id == eid then mergeForm p f else p)
    | none => .saved (places ++ [formToPlace f newId mapId])

/-- A place with both coordinates present and nonzero. -/
def okPlace : Place :=
  { id := "1", name := "A", lat := some 49, lng := some (-123) }

/-- A place with both coordinate fields present, the latitude being 0. -/
def zeroLatPlace : Place :=
  { id := "2", name := "B", lat := some 0, lng := some (-123) }

/-- A concrete maps-table row used by the witnesses. -/
def sampleRow : MapRow :=
  { id := "m1", name := "Food", emoji := "e", category := "Restaurants",
    code := "ABCDEF", members := [], created_at := 0, owner_id := "u1" }

/-- A backend holding the one sample map and no places. -/
def sampleStore : Store :=
  { maps := [sampleRow], places := [], user_maps := [] }

/-- The MapList value onMapJoined builds for the sample row. -/
def sampleMapList : MapList :=
  { id := "m1", name := "Food", emoji := "e", category := "Restaurants",
    code := "ABCDEF", members := [], places := [], created_at := 0,
    owner_id := some "u1" }

/-- A form with a nonempty name, used by the savePlace witness. -/
def sampleForm : PlaceForm :=
  { name := some "Sushi", lat := some 49, lng := some (-123) }

/-- A map already holding 200 places. -/
def fullPlaces : List Place :=
  List.replicate 200 okPlace

/-- The marker-sync step ignores the previously rendered markers, so a fold
over any update sequence is determined by the final list. -/
theorem foldl_markerSyncStep_getLast (updates : List (List Place))
    (a : List Marker) (ps : List Place) (h : updates.getLast? = some ps) :
    updates.foldl markerSyncStep a = (ps.filter hasTruthyCoords).map mkMarker := by
  induction updates generalizing a with
  | nil => simp at h
  | cons x xs ih =>
    cases xs with
    | nil =>
      simp at h
      subst h
      simp [markerSyncStep]
    | cons y ys =>
      rw [List.foldl_cons]
      exact ih _ (by simpa using h)

/-- Marker construction keeps the whole place as the click payload, so it is
injective. -/
theorem mkMarker_injective : Function.Injective mkMarker :=
  fun _ _ h => congrArg Marker.clickPayload h

/-- Claim C1 (amended): after any nonempty sequence of place-list updates on
a ready map, the rendered markers are exactly one marker per entry of the
final list passing the truthiness filter p.lat && p.lng (both coordinates
present and nonzero), and a duplicate-free final list yields duplicate-free
markers: the synchronizer removes the full prior marker set and adds a fresh
full set on each change. -/
theorem C1_marker_sync (updates : List (List Place)) (ps : List Place)
    (h : updates.getLast? = some ps) :
    runMarkerSync updates = (ps.filter hasTruthyCoords).map mkMarker ∧
    (ps.Nodup → (runMarkerSync updates).Nodup) := by
  have hrun : runMarkerSync updates = (ps.filter hasTruthyCoords).map mkMarker :=
    foldl_markerSyncStep_getLast updates [] ps h
  refine ⟨hrun, fun hnd => ?_⟩
  rw [hrun]
  exact (hnd.filter _).map mkMarker_injective

/-- Witness for C1 at a concrete two-update run ending in a two-place list. -/
theorem C1_marker_sync_witness :
    runMarkerSync [[okPlace], [okPlace, zeroLatPlace]] =
      ([okPlace, zeroLatPlace].filter hasTruthyCoords).map mkMarker ∧
    ([okPlace, zeroLatPlace].Nodup →
      (runMarkerSync [[okPlace], [okPlace, zeroLatPlace]]).Nodup) :=
  C1_marker_sync [[okPlace], [okPlace, zeroLatPlace]] [okPlace, zeroLatPlace]
    (by decide)

/-- Counterexample to C1 as stated: a place whose latitude field is present
but 0 has both coordinates present, yet the rendered marker set (empty) is
not the marker set the claim describes. -/
theorem C1_counterexample :
    (runMarkerSync [[zeroLatPlace]] = specMarkerSet [zeroLatPlace]) = False :=
  eq_false (by decide)

/-- Claim C9: a place whose latitude or longitude equals 0 fails the
truthiness filter and is excluded from rendering in the web and the native
variant alike. -/
theorem C9_zero_coord_excluded (ps : List Place) (p : Place)
    (gpc : Option String → String) (h : p.lat = some 0 ∨ p.lng = some 0) :
    hasTruthyCoords p = false ∧
    (∀ m ∈ runMarkerSync [ps], ¬ m.clickPayload = p) ∧
    (∀ m ∈ nativeRender gpc ps, ¬ m.pressPayload = p) := by
  have hz : numTruthy (some (0 : ℚ)) = false := by decide
  have hf : hasTruthyCoords p = false := by
    rcases h with h | h <;> simp [hasTruthyCoords, h, hz]
  refine ⟨hf, fun m hm hpay => ?_, fun m hm hpay => ?_⟩
  · have hm2 : m ∈ (ps.filter hasTruthyCoords).map mkMarker := by
      simpa [runMarkerSync, markerSyncStep] using hm
    obtain ⟨q, hq, hmq⟩ := List.mem_map.mp hm2
    have hqp : q = p := by
      rw [← hpay, ← hmq]
      rfl
    rw [hqp] at hq
    obtain ⟨-, htru⟩ := List.mem_filter.mp hq
    rw [hf] at htru
    exact absurd htru (by decide)
  · have hm2 := hm
    rw [nativeRender] at hm2
    obtain ⟨q, hq, hmq⟩ := List.mem_map.mp hm2
    have hqp : q = p := by
      rw [← hpay, ← hmq]
    rw [hqp] at hq
    obtain ⟨-, htru⟩ := List.mem_filter.mp hq
    rw [hf] at htru
    exact absurd htru (by decide)

/-- Claim C2, evaluated against both cited variants: the _SpotMap.tsx WebMap
handler yields a coordinate capture exactly when pin-mode is active at
gesture time, while the SpotMap.web.tsx handler installed on a mount with
pin-mode off ignores the gesture even though pin-mode is active at gesture
time (the [] dependencies keep the captured value). -/
theorem C2_pin_mode_gating :
    (∀ pin e, (spotMapWebContextMenu pin e).isSome = pin) ∧
    (∀ e, webTsxContextMenu (webTsxInstall false) true e = none) := by
  constructor
  · intro pin e
    cases pin <;> simp [spotMapWebContextMenu]
  · intro e
    simp [webTsxContextMenu, webTsxInstall]

/-- One tryInit invocation preserves the single-construction invariant. -/
theorem tryInitStep_inv (s : TryInitState) (b : Bool)
    (h1 : s.constructions ≤ 1) (h2 : s.mapInstance = none → s.constructions = 0) :
    (tryInitStep s b).constructions ≤ 1 ∧
    ((tryInitStep s b).mapInstance = none → (tryInitStep s b).constructions = 0) := by
  unfold tryInitStep
  split_ifs with hb hsome
  · exact ⟨h1, h2⟩
  · exact ⟨h1, h2⟩
  · have h0 : s.constructions = 0 := h2 (by
      cases hmi : s.mapInstance with
      | none => rfl
      | some v => rw [hmi] at hsome; simp at hsome)
    constructor
    · show s.constructions + 1 ≤ 1
      omega
    · intro hmi
      exact hmi.elim

/-- One createMap invocation preserves the single-construction invariant. -/
theorem createMapStep_inv (s : TryInitState) (b : Bool)
    (h1 : s.constructions ≤ 1) (h2 : s.mapInstance = none → s.constructions = 0) :
    (createMapStep s b).constructions ≤ 1 ∧
    ((createMapStep s b).mapInstance = none → (createMapStep s b).constructions = 0) := by
  unfold createMapStep
  split_ifs with hc
  · exact ⟨h1, h2⟩
  · simp at hc
    have h0 : s.constructions = 0 := h2 (by
      cases hmi : s.mapInstance with
      | none => rfl
      | some v => rw [hmi] at hc; simp at hc)
    constructor
    · show s.constructions + 1 ≤ 1
      omega
    · intro hmi
      exact hmi.elim

/-- The invariant carries through any sequence of tryInit invocations. -/
theorem foldl_tryInitStep_inv (events : List Bool) (s : TryInitState)
    (h1 : s.constructions ≤ 1) (h2 : s.mapInstance = none → s.constructions = 0) :
    (events.foldl tryInitStep s).constructions ≤ 1 := by
  induction events generalizing s with
  | nil => exact h1
  | cons e es ih =>
    obtain ⟨g1, g2⟩ := tryInitStep_inv s e h1 h2
    exact ih (tryInitStep s e) g1 g2

/-- The invariant carries through any sequence of createMap invocations. -/
theorem foldl_createMapStep_inv (events : List Bool) (s : TryInitState)
    (h1 : s.constructions ≤ 1) (h2 : s.mapInstance = none → s.constructions = 0) :
    (events.foldl createMapStep s).constructions ≤ 1 := by
  induction events generalizing s with
  | nil => exact h1
  | cons e es ih =>
    obtain ⟨g1, g2⟩ := createMapStep_inv s e h1 h2
    exact ih (createMapStep s e) g1 g2

/-- Claim C3: for every interleaving of asynchronous completions invoking the
construction paths, each mounted view constructs its map at most once; both
cited paths check the instance ref before creating. -/
theorem C3_single_construction (events : List Bool) :
    (tryInitRun events).constructions ≤ 1 ∧
    (createMapRun events).constructions ≤ 1 :=
  ⟨foldl_tryInitStep_inv events tryInitInitial (by decide) (fun _ => rfl),
   foldl_createMapStep_inv events tryInitInitial (by decide) (fun _ => rfl)⟩

/-- A part_003 tick on an active poll counts the attempt and leaves the
interval scheduled. -/
theorem part3PollTick_active (a : ℕ) (r : Bool) :
    part3PollTick { attempts := a, intervalActive := true, ready := r } =
      { attempts := a + 1, intervalActive := true, ready := r } := rfl

/-- The part_003 poll state after any number of never-ready ticks. -/
theorem part3Poll_state (n : ℕ) :
    part3PollTick^[n] pollInitial =
      { attempts := n, intervalActive := true, ready := false } := by
  induction n with
  | zero => rfl
  | succ k ih =>
    rw [Function.iterate_succ_apply', ih, part3PollTick_active]

/-- A part_000 tick on an active poll counts the attempt and clears the
interval once the counter passes 50. -/
theorem part0PollTick_active (a : ℕ) (r : Bool) :
    part0PollTick { attempts := a, intervalActive := true, ready := r } =
      if 50 < a + 1 then { attempts := a + 1, intervalActive := false, ready := r }
      else { attempts := a + 1, intervalActive := true, ready := r } := rfl

/-- A part_000 tick on a cleared poll changes nothing. -/
theorem part0PollTick_inactive (a : ℕ) (r : Bool) :
    part0PollTick { attempts := a, intervalActive := false, ready := r } =
      { attempts := a, intervalActive := false, ready := r } := rfl

/-- The part_000 poll state after any number of never-ready ticks: it runs
for exactly 51 attempts and then stays cleared. -/
theorem part0Poll_state (n : ℕ) :
    part0PollTick^[n] pollInitial =
      if n ≤ 50 then { attempts := n, intervalActive := true, ready := false }
      else { attempts := 51, intervalActive := false, ready := false } := by
  induction n with
  | zero => rfl
  | succ k ih =>
    rw [Function.iterate_succ_apply', ih]
    by_cases hk0 : k ≤ 50
    · rw [if_pos hk0, part0PollTick_active]
      by_cases hk1 : k + 1 ≤ 50
      · rw [if_neg (by omega), if_pos hk1]
      · rw [if_pos (by omega), if_neg hk1]
        have h51 : k + 1 = 51 := by omega
        rw [h51]
    · rw [if_neg hk0, part0PollTick_inactive, if_neg (by omega)]

/-- Claim C4 (amended): the readiness polls that carry a bound (part_000
modelled here, likewise part_001 and the for-loops of _SpotMap.tsx) stop
after exhausting it and leave the view silently non-ready; the part_003 poll
(and the SpotMap.web.tsx retry loop) never stops when readiness never
arrives, while also staying silently non-ready — no path throws or sets
ready. -/
theorem C4_poll_bound :
    (∀ n, 50 < n → (part0PollTick^[n] pollInitial).intervalActive = false) ∧
    (∀ n, (part0PollTick^[n] pollInitial).ready = false) ∧
    (∀ n, (part3PollTick^[n] pollInitial).intervalActive = true) ∧
    (∀ n, (part3PollTick^[n] pollInitial).ready = false) := by
  refine ⟨fun n hn => ?_, fun n => ?_, fun n => ?_, fun n => ?_⟩
  · rw [part0Poll_state, if_neg (by omega)]
  · rw [part0Poll_state]
    split_ifs <;> rfl
  · rw [part3Poll_state]
  · rw [part3Poll_state]

/-- Counterexample to C4 as stated: the part_003 readiness poll admits no
attempt bound past which it has terminated — the interval stays scheduled
after every number of ticks. -/
theorem C4_counterexample : part3PollGivesUp = False := by
  refine eq_false ?_
  rintro ⟨B, hB⟩
  have h := hB B le_rfl
  rw [part3Poll_state] at h
  simp at h

/-- Witness for C9 at a concrete list holding the zero-latitude place. -/
theorem C9_zero_coord_excluded_witness :
    hasTruthyCoords zeroLatPlace = false ∧
    (∀ m ∈ runMarkerSync [[zeroLatPlace, okPlace]],
      ¬ m.clickPayload = zeroLatPlace) ∧
    (∀ m ∈ nativeRender (fun _ => "#2563eb") [zeroLatPlace, okPlace],
      ¬ m.pressPayload = zeroLatPlace) :=
  C9_zero_coord_excluded [zeroLatPlace, okPlace] zeroLatPlace
    (fun _ => "#2563eb") (Or.inl rfl)

/-- Claim C5: the location provider invokes its continuation exactly once in
every environment — with the device position on success, with the fixed
fallback (49.2827, -123.1207) on denial, timeout or missing capability — and
a view with denied or absent geolocation is centered on the fallback in the
web and the native variant alike. -/
theorem C5_location_provider (env : GeoEnv) :
    (getLocationCalls env).length = 1 ∧
    (∀ la ln, env.hasGeolocation = true → env.outcome = GeoOutcome.success la ln →
      getLocationCalls env = [(la, ln)]) ∧
    ((env.hasGeolocation = false ∨ env.outcome = GeoOutcome.failure) →
      getLocationCalls env = [(492827 / 10000, -1231207 / 10000)] ∧
      webInitCenter env = (492827 / 10000, -1231207 / 10000) ∧
      nativeCenter (nativeLocationState env) = (492827 / 10000, -1231207 / 10000)) := by
  obtain ⟨hg, out⟩ := env
  cases hg <;> cases out <;>
    simp [getLocationCalls, webInitCenter, nativeLocationState, nativeCenter,
      DEFAULT_LOCATION, List.headI]

/-- Composing a filter that keeps a predicate with the filter that removed it
leaves nothing. -/
theorem filter_pos_of_filter_neg {α : Type} (p : α → Bool) (l : List α) :
    ((l.filter fun a => !(p a)).filter fun a => p a) = [] := by
  induction l with
  | nil => rfl
  | cons x xs ih =>
    by_cases hx : p x = true
    · simp [hx, ih]
    · simp only [Bool.not_eq_true] at hx
      simp [hx, ih]

/-- Claim C6: after deleteMap, the map row, every place row of that map and
the local home-list entry are gone from subsequent reads (the cascade itself
is the spec-modelled backend behavior, dbDeleteMapCascade). -/
theorem C6_delete_cascades (s : Store) (localMaps : List MapList) (id : String) :
    selectMapById (deleteMap s localMaps id).1 id = [] ∧
    selectPlacesByMapId (deleteMap s localMaps id).1 id = [] ∧
    ∀ m ∈ (deleteMap s localMaps id).2, ¬ m.id = id := by
  refine ⟨?_, ?_, ?_⟩
  · show ((s.maps.filter fun m => !(m.id == id)).filter fun m => m.id == id) = []
    exact filter_pos_of_filter_neg (fun m => m.id == id) s.maps
  · show ((s.places.filter fun p => !(p.map_id == some id)).filter
      fun p => p.map_id == some id) = []
    exact filter_pos_of_filter_neg (fun p => p.map_id == some id) s.places
  · intro m hm heq
    have hkeep := (List.mem_filter.mp hm).2
    rw [heq] at hkeep
    simp at hkeep

/-- Claim C7: on a map already holding 200 or more places, a non-edit save
always ends in an alert and leaves the place list unchanged; and every save
outcome preserves the place-count bound of 200. -/
theorem C7_place_limit (places : List Place) (editing : Option String)
    (f : PlaceForm) (newId mapId : String) (backendOk : Bool) :
    (editing = none → 200 ≤ places.length →
      (savePlace places editing f newId mapId backendOk).isAlert = true ∧
      placesAfter places (savePlace places editing f newId mapId backendOk) = places) ∧
    (places.length ≤ 200 →
      (placesAfter places (savePlace places editing f newId mapId backendOk)).length ≤ 200) := by
  constructor
  · intro he h200
    unfold savePlace
    split_ifs with h1 h2 h3
    · exact ⟨rfl, rfl⟩
    · exact ⟨rfl, rfl⟩
    · exact absurd ⟨he, h200⟩ h2
    · exact absurd ⟨he, h200⟩ h2
  · intro hlen
    unfold savePlace
    split_ifs with h1 h2 h3
    · exact hlen
    · exact hlen
    · exact hlen
    · cases editing with
      | some eid =>
        simpa [placesAfter] using hlen
      | none =>
        have hlt : ¬ 200 ≤ places.length := fun hc => h2 ⟨rfl, hc⟩
        simp only [placesAfter, List.length_append, List.length_singleton]
        omega

/-- The 200-place sample map indeed holds 200 places. -/
theorem fullPlaces_length : fullPlaces.length = 200 :=
  List.length_replicate _ _

/-- Witness for C7: a non-edit save on a 200-place map alerts and changes
nothing. -/
theorem C7_place_limit_witness :
    (savePlace fullPlaces none sampleForm "99" "m1" true).isAlert = true ∧
    placesAfter fullPlaces (savePlace fullPlaces none sampleForm "99" "m1" true) =
      fullPlaces :=
  (C7_place_limit fullPlaces none sampleForm "99" "m1" true).1 rfl
    (le_of_eq fullPlaces_length.symm)

/-- Claim C8: a join-code lookup miss returns false and leaves the local home
list, the backend state, and the navigation unchanged — the handler returns
before the membership upsert and the setMaps call. -/
theorem C8_join_miss (s : Store) (userId : String) (localMaps : List MapList)
    (code : String) (hmiss : selectMapByCode s (jsToUpperCase code) = none) :
    onMapJoined s userId localMaps code =
      { success := false, localMaps := localMaps, store := s, opened := none } := by
  unfold onMapJoined
  rw [hmiss]

/-- Witness for C8 on an empty backend and an unknown code. -/
theorem C8_join_miss_witness :
    onMapJoined { maps := [], places := [], user_maps := [] } "u1" [] "QQQQQQ" =
      { success := false, localMaps := [],
        store := { maps := [], places := [], user_maps := [] }, opened := none } :=
  C8_join_miss { maps := [], places := [], user_maps := [] } "u1" [] "QQQQQQ" rfl

/-- Claim C10: a successful join of a map already on the home list leaves the
list unchanged, and joining never introduces a duplicate map identifier. -/
theorem C10_join_idempotent (s : Store) (userId : String)
    (localMaps : List MapList) (code : String) :
    (∀ row, selectMapByCode s (jsToUpperCase code) = some row →
      row.id ∈ localMaps.map MapList.id →
      (onMapJoined s userId localMaps code).localMaps = localMaps) ∧
    ((localMaps.map MapList.id).Nodup →
      ((onMapJoined s userId localMaps code).localMaps.map MapList.id).Nodup) := by
  constructor
  · intro row hrow hmem
    have hany : localMaps.any (fun m => m.id == row.id) = true := by
      rcases List.mem_map.mp hmem with ⟨m, hm, hid⟩
      exact List.any_eq_true.mpr ⟨m, hm, by simp [hid]⟩
    simp [onMapJoined, hrow, joinedMapList, hany]
  · intro hnd
    cases hsel : selectMapByCode s (jsToUpperCase code) with
    | none => simpa [onMapJoined, hsel] using hnd
    | some row =>
      by_cases hany : localMaps.any (fun m => m.id == row.id) = true
      · simpa [onMapJoined, hsel, joinedMapList, hany] using hnd
      · have hnotin : row.id ∉ localMaps.map MapList.id := by
          intro hmem
          rcases List.mem_map.mp hmem with ⟨m, hm, hid⟩
          exact hany (List.any_eq_true.mpr ⟨m, hm, by simp [hid]⟩)
        simp only [onMapJoined, hsel, joinedMapList, hany, if_false,
          Bool.false_eq_true, List.map_append, List.map_cons, List.map_nil]
        rw [List.nodup_append]
        exact ⟨hnd, List.nodup_singleton _, by
          intro a ha hb
          simp only [List.mem_singleton] at hb
          exact hnotin (hb ▸ ha)⟩

/-- Witness for C10: joining the sample map while it is already on the home
list leaves the list as it was. -/
theorem C10_join_idempotent_witness :
    (onMapJoined sampleStore "u1" [sampleMapList] "ABCDEF").localMaps =
      [sampleMapList] :=
  (C10_join_idempotent sampleStore "u1" [sampleMapList] "ABCDEF").1 sampleRow
    (by decide) (by decide)

end SpotJar
